import Mathlib

/-!
Verification development for the `linea-prod` coffee-toll-processing
application (Django, `src/core/`).  The Python source is shallowly embedded:

* Python strings are `List Char` (`PyStr`); Python string operations used by
  the source (`startswith`, `split('-')[-1]`, `int(...)`, `f"{n:03d}"`,
  lexicographic comparison used by `order_by('-order_number')`) are given
  transparent list-level definitions below.
* `Decimal` fields are `ℚ`; nullable columns are `Option`; datetimes are
  abstract instants `Nat` supplied as explicit `now` arguments in place of
  `timezone.now()`.
* A django-fsm `@transition(source=s, target=t)` method either succeeds when
  the current state is in `s` or raises `TransitionNotAllowed` (the spec's
  `IllegalTransitionError`); this is embedded as `Except TransitionError`.
* The database is passed explicitly: a view that runs an ORM query receives
  the list of rows it may see, and a "saved" row is returned in the result.
-/

namespace LineaProd

/-- Python strings, embedded as lists of characters. -/
abbrev PyStr := List Char

/-- Python lexicographic string comparison `s < t` (by code point; a proper
front segment is smaller), used by the ORM ordering `order_by('-order_number')`. -/
def lexLt : PyStr → PyStr → Bool
  | [], [] => false
  | [], _ :: _ => true
  | _ :: _, [] => false
  | a :: s, b :: t => if a < b then true else if b < a then false else lexLt s t

/-- The largest string of a list under `lexLt`; `order_by('-order_number').first()`
on a queryset whose rows are `l` returns exactly this (order numbers are unique). -/
def pyMax : List PyStr → Option PyStr
  | [] => none
  | s :: rest =>
    match pyMax rest with
    | none => some s
    | some m => some (if lexLt m s then s else m)

/-- Python `s.split(sep)[-1]`: the suffix of `s` after the last occurrence of
`sep` (the whole string when `sep` does not occur). -/
def afterLastSep (sep : Char) (s : PyStr) : PyStr :=
  ((s.reverse.takeWhile (fun c => c != sep)).reverse)

/-- Numeric value of a decimal digit character, `none` on a non-digit. -/
def digitVal? (c : Char) : Option Nat :=
  if c.isDigit then some (c.toNat - 48) else none

/-- Python `int(s)` restricted to the non-empty all-digit strings that occur as
order-number suffixes; `none` models the `ValueError` raised otherwise. -/
def pyInt? (s : PyStr) : Option Nat :=
  if s.isEmpty then none
  else s.foldl (fun acc c => acc.bind (fun n => (digitVal? c).map (fun d => 10 * n + d))) (some 0)

/-- The character of a decimal digit (`0`–`9` for inputs below ten). -/
def pyDigitChar (d : Nat) : Char := Char.ofNat (48 + d)

/-- Python `f"{n:03d}"`: `n` printed in decimal, left-padded with zeros to at
least three characters (four or more digits are printed in full). -/
def pad3 (n : Nat) : PyStr :=
  if n < 1000 then [pyDigitChar (n / 100), pyDigitChar (n / 10 % 10), pyDigitChar (n % 10)]
  else (Nat.repr n).data

/-- Python truthiness of an `Optional[Decimal]`: `None` and `0` are falsy. -/
def qTruthy : Option ℚ → Bool
  | none => false
  | some x => x != 0

/-- Order lifecycle states (`Order.STATE_CHOICES`, models.py 236–245). -/
inductive OState where
  | registered
  | in_toasting
  | toasting_complete
  | in_production
  | ready_for_billing
  | billed
  | delivered
  | cancelled
deriving DecidableEq

/-- User roles (`User.ROLE_CHOICES`, models.py 99–106). -/
inductive Role where
  | super_admin
  | admin_company
  | aux_registro
  | aux_tostion
  | aux_produccion
  | aux_facturacion
deriving DecidableEq

/-- Coffee presentations (`Order.PACKAGING_PRESENTATION_CHOICES`, models.py 253–256). -/
inductive CoffeeType where
  | cps
  | excelso
deriving DecidableEq

/-- The fields of `Order` (models.py 232–508) that the verified claims touch.
Foreign keys are carried as numeric ids; `order_number` is a Python string. -/
structure Order where
  id : Nat
  company : Nat
  order_number : PyStr
  quantity_kg : Option ℚ
  coffee_type : CoffeeType
  original_coffee_type : Option CoffeeType
  kg_despues_trilla : Option ℚ
  porcentaje_reduccion_excelso : Option ℚ
  state : OState
  toasting_started_at : Option Nat
  toasting_completed_at : Option Nat
  production_started_at : Option Nat
  production_completed_at : Option Nat
  billed_at : Option Nat
  delivered_at : Option Nat
  toasted_by : Option Nat
  produced_by : Option Nat
  billed_by : Option Nat
  delivered_by : Option Nat
deriving DecidableEq

/-- The transition table of `Order.can_transition_to` (models.py 457–466). -/
def valid_transitions (s : OState) : List OState :=
  match s with
  | .registered => [.in_toasting, .cancelled]
  | .in_toasting => [.toasting_complete, .cancelled]
  | .toasting_complete => [.in_production, .cancelled]
  | .in_production => [.ready_for_billing, .cancelled]
  | .ready_for_billing => [.billed, .cancelled]
  | .billed => [.delivered, .cancelled]
  | .delivered => []
  | .cancelled => []

/-- `Order.can_transition_to` (models.py 455–467). -/
def Order.can_transition_to (o : Order) (new_state : OState) : Bool :=
  (valid_transitions o.state).contains new_state

/-- django-fsm raises `TransitionNotAllowed` when a transition method is
invoked in a state outside its `source` list; the spec calls this error
`IllegalTransitionError`. -/
inductive TransitionError where
  | transitionNotAllowed
deriving DecidableEq

/-- FSM transition `start_toasting` (models.py 473–475):
`registered → in_toasting`, stamps `toasting_started_at`. -/
def Order.start_toasting (o : Order) (now : Nat) : Except TransitionError Order :=
  if o.state = .registered then
    .ok { o with state := .in_toasting, toasting_started_at := some now }
  else .error .transitionNotAllowed

/-- FSM transition `complete_toasting` (models.py 477–479):
`in_toasting → toasting_complete`, stamps `toasting_completed_at`. -/
def Order.complete_toasting (o : Order) (now : Nat) : Except TransitionError Order :=
  if o.state = .in_toasting then
    .ok { o with state := .toasting_complete, toasting_completed_at := some now }
  else .error .transitionNotAllowed

/-- FSM transition `start_production` (models.py 481–483):
`toasting_complete → in_production`, stamps `production_started_at`. -/
def Order.start_production (o : Order) (now : Nat) : Except TransitionError Order :=
  if o.state = .toasting_complete then
    .ok { o with state := .in_production, production_started_at := some now }
  else .error .transitionNotAllowed

/-- FSM transition `complete_production` (models.py 485–487):
`in_production → ready_for_billing`, stamps `production_completed_at`. -/
def Order.complete_production (o : Order) (now : Nat) : Except TransitionError Order :=
  if o.state = .in_production then
    .ok { o with state := .ready_for_billing, production_completed_at := some now }
  else .error .transitionNotAllowed

/-- FSM transition `bill_order` (models.py 489–491):
`ready_for_billing → billed`, stamps `billed_at`. -/
def Order.bill_order (o : Order) (now : Nat) : Except TransitionError Order :=
  if o.state = .ready_for_billing then
    .ok { o with state := .billed, billed_at := some now }
  else .error .transitionNotAllowed

/-- FSM transition `deliver_order` (models.py 493–495):
`billed → delivered`, stamps `delivered_at`. -/
def Order.deliver_order (o : Order) (now : Nat) : Except TransitionError Order :=
  if o.state = .billed then
    .ok { o with state := .delivered, delivered_at := some now }
  else .error .transitionNotAllowed

/-- FSM transition `cancel_order` (models.py 497–499): every non-terminal
state `→ cancelled`; its body is `pass`, so no timestamp is stamped. -/
def Order.cancel_order (o : Order) : Except TransitionError Order :=
  if o.state = .registered ∨ o.state = .in_toasting ∨ o.state = .toasting_complete ∨
      o.state = .in_production ∨ o.state = .ready_for_billing ∨ o.state = .billed then
    .ok { o with state := .cancelled }
  else .error .transitionNotAllowed

/-- The spec's abstract `transition(order, target)` realized by the source:
each target state is served by exactly one of the FSM methods of models.py
473–499 (no method targets `registered`). -/
def requestTransition (o : Order) (target : OState) (now : Nat) : Except TransitionError Order :=
  match target with
  | .registered => .error .transitionNotAllowed
  | .in_toasting => o.start_toasting now
  | .toasting_complete => o.complete_toasting now
  | .in_production => o.start_production now
  | .ready_for_billing => o.complete_production now
  | .billed => o.bill_order now
  | .delivered => o.deliver_order now
  | .cancelled => o.cancel_order

/-- The transition table exactly as the spec (§4.2) and claim C1 state it,
written from the spec's words for comparison with the code. -/
def spec_transition_table (s : OState) : List OState :=
  match s with
  | .registered => [.in_toasting, .cancelled]
  | .in_toasting => [.toasting_complete, .cancelled]
  | .toasting_complete => [.in_production, .cancelled]
  | .in_production => [.ready_for_billing, .cancelled]
  | .ready_for_billing => [.billed, .cancelled]
  | .billed => [.delivered, .cancelled]
  | .delivered => []
  | .cancelled => []

/-- Common body of `Order.generate_order_number` (models.py 422–441) and
`Invoice.generate_invoice_number` (models.py 901–919).  `existing` is the
company's rows (their number strings): the source filters them by
`startswith(base)`, takes the string-maximum (`order_by('-number').first()`),
parses the suffix after the last `-` with `int`, and appends `+1` zero-padded;
`none` models the `ValueError` raised on an unparsable suffix. -/
def generate_number (pre nit date : PyStr) (existing : List PyStr) : Option PyStr :=
  let base := pre ++ '-' :: nit ++ '-' :: date
  match pyMax (existing.filter (fun s => base.isPrefixOf s)) with
  | none => some (base ++ '-' :: pad3 1)
  | some last => (pyInt? (afterLastSep '-' last)).map (fun k => base ++ '-' :: pad3 (k + 1))

/-- `Order.generate_order_number` (models.py 422–441): base is
`MAQ-{company.nit}-{YYYYMMDD}`. -/
def generate_order_number (nit date : PyStr) (existing : List PyStr) : Option PyStr :=
  generate_number ['M', 'A', 'Q'] nit date existing

/-- `Invoice.generate_invoice_number` (models.py 901–919): base is
`FAC-{company.nit}-{YYYYMMDD}`. -/
def generate_invoice_number (nit date : PyStr) (existing : List PyStr) : Option PyStr :=
  generate_number ['F', 'A', 'C'] nit date existing

/-- The base of an order number: `MAQ-{nit}-{YYYYMMDD}` (models.py 426). -/
def maq_base (nit date : PyStr) : PyStr := ['M', 'A', 'Q'] ++ '-' :: nit ++ '-' :: date

/-- The shrink branch of `Order.save` (models.py 403–418), as a function of
the fields it reads: the new `(kg_despues_trilla, porcentaje_reduccion_excelso)`
pair.  When the original type is `cps` and the current one `excelso`, with a
truthy `quantity_kg` and a non-null `kg_despues_trilla`: a positive quantity
yields `(quantity − after) / quantity × 100`, a non-positive one yields `0`
(the source reaches that branch only for negative quantities, since a zero
`quantity_kg` is falsy); in every other case both fields are cleared. -/
def shrink_update (orig : Option CoffeeType) (coffee : CoffeeType) (q kg : Option ℚ) :
    Option ℚ × Option ℚ :=
  if orig = some .cps ∧ coffee = .excelso then
    if qTruthy q ∧ kg ≠ none then
      if q.getD 0 > 0 then (kg, some ((q.getD 0 - kg.getD 0) / q.getD 0 * 100))
      else (kg, some 0)
    else (none, none)
  else (none, none)

/-- `original_coffee_type` after the defaulting step of `Order.save`
(models.py 400–401): on a first insert with a falsy original type, the
current `coffee_type` is recorded as the original. -/
def effective_original (o : Order) (adding : Bool) : Option CoffeeType :=
  if adding ∧ o.original_coffee_type = none then some o.coffee_type
  else o.original_coffee_type

/-- The derived-field portion of `Order.save` (models.py 399–418): default
`original_coffee_type` from `coffee_type` on first insert, then write the
`(kg_despues_trilla, porcentaje_reduccion_excelso)` pair that the source's
branch structure (reproduced in `shrink_update`) produces. -/
def Order.save_derived (o : Order) (adding : Bool) : Order :=
  let orig := effective_original o adding
  let p := shrink_update orig o.coffee_type o.quantity_kg o.kg_despues_trilla
  { o with original_coffee_type := orig, kg_despues_trilla := p.1,
           porcentaje_reduccion_excelso := p.2 }

/-- `Order.save` (models.py 394–420).  `adding` is `self._state.adding`;
`nit` and `date` are the company tax id and today's date, `companyNumbers`
the order numbers of the company's existing orders (the queryset the number
generator filters).  Steps, in source order: synthesize `order_number` when
it is falsy, then apply the derived-field computation; `none` models an
exception escaping number generation. -/
def Order.save (o : Order) (adding : Bool) (nit date : PyStr) (companyNumbers : List PyStr) :
    Option Order :=
  match (if o.order_number = [] then generate_order_number nit date companyNumbers
         else some o.order_number) with
  | none => none
  | some num => some { o.save_derived adding with order_number := num }

/-- The authenticated principal as the views see it: `request.user` with its
role, optional company id, and whether that company's status is `active`. -/
structure Principal where
  id : Nat
  role : Role
  company : Option Nat
  company_active : Bool
deriving DecidableEq

/-- Rejections a request can meet in the embedded views.  `noCompany` and
`companySuspended` are the spec's `ScopeError`; `permissionDenied` is its
`AuthorizationError`; `notFound` is the `Order.DoesNotExist` rejection of a
tenant-and-state-filtered lookup; `transitionNotAllowed` is
`IllegalTransitionError`; `saveFailed` is an exception escaping `save`. -/
inductive ViewError where
  | noCompany
  | companySuspended
  | permissionDenied
  | notFound
  | transitionNotAllowed
  | saveFailed
  | auditError
deriving DecidableEq

/-- The decorator `rol_requerido(*roles_permitidos)` (decorators.py 20–48),
applied to an authenticated principal; checks run in source order: missing
company (unless super_admin), inactive company, then role membership. -/
def rol_requerido (roles_permitidos : List Role) (p : Principal) : Option ViewError :=
  if p.company = none ∧ p.role ≠ .super_admin then some .noCompany
  else if p.company ≠ none ∧ p.company_active = false then some .companySuspended
  else if p.role ∉ roles_permitidos then some .permissionDenied
  else none

/-- `StartToastingView` (views.py 812–855): dispatch is guarded by
`rol_requerido('aux_tostion', 'admin_company', 'super_admin')`; `post` looks
up `Order.objects.get(id=order_id, company=request.user.company,
state='registered')`, runs `start_toasting()`, sets `toasted_by`, and saves.
An error result carries no database: no row was modified on that path.  (The
`ActivityLog` insert that follows the save is modelled separately, in the
audit-emitter definitions.) -/
def startToastingPost (p : Principal) (db : List Order) (order_id : Nat) (now : Nat)
    (nit date : PyStr) : Except ViewError (List Order × Order) :=
  match rol_requerido [.aux_tostion, .admin_company, .super_admin] p with
  | some e => .error e
  | none =>
    match db.find? (fun o =>
        o.id == order_id && some o.company == p.company && o.state == OState.registered) with
    | none => .error .notFound
    | some maquila =>
      match maquila.start_toasting now with
      | .error _ => .error .transitionNotAllowed
      | .ok m1 =>
        match Order.save { m1 with toasted_by := some p.id } false nit date
            ((db.filter (fun x => x.company == m1.company)).map Order.order_number) with
        | none => .error .saveFailed
        | some saved =>
          .ok (db.map (fun x => if x.id == order_id then saved else x), saved)

/-- The complete start-toasting transition as performed by
`StartToastingView.post` lines 831–833 on the fetched order:
`start_toasting(); toasted_by = request.user; save()`. -/
def start_toasting_step (o : Order) (u now : Nat) (nit date : PyStr)
    (companyNumbers : List PyStr) : Option Order :=
  match o.start_toasting now with
  | .error _ => none
  | .ok o1 => Order.save { o1 with toasted_by := some u } false nit date companyNumbers

/-- The complete toasting-completion transition as performed by
`TostionCreateView.form_valid` lines 1003–1005 on the order:
`complete_toasting(); toasted_by = request.user; save()`. -/
def complete_toasting_step (o : Order) (u now : Nat) (nit date : PyStr)
    (companyNumbers : List PyStr) : Option Order :=
  match o.complete_toasting now with
  | .error _ => none
  | .ok o1 => Order.save { o1 with toasted_by := some u } false nit date companyNumbers

/-- The production-completion transition as performed by
`ProduccionCreateView.form_valid` lines 1132–1134:
`complete_production(); produced_by = request.user; save()`. -/
def complete_production_step (o : Order) (u now : Nat) (nit date : PyStr)
    (companyNumbers : List PyStr) : Option Order :=
  match o.complete_production now with
  | .error _ => none
  | .ok o1 => Order.save { o1 with produced_by := some u } false nit date companyNumbers

/-- The billing transition as performed by `FacturacionCreateView.form_valid`
lines 1267–1269: `bill_order(); billed_by = request.user; save()`. -/
def bill_order_step (o : Order) (u now : Nat) (nit date : PyStr)
    (companyNumbers : List PyStr) : Option Order :=
  match o.bill_order now with
  | .error _ => none
  | .ok o1 => Order.save { o1 with billed_by := some u } false nit date companyNumbers

/-- `ToastingProcess.PROCESS_STATUS_CHOICES` (models.py 515–520). -/
inductive ProcessStatus where
  | received
  | started
  | monitoring
  | completed
deriving DecidableEq

/-- Final grain quality choices (models.py 646–657). -/
inductive GrainQuality where
  | excellent
  | good
  | regular
  | poor
deriving DecidableEq

/-- The fields of `ToastingProcess` (models.py 511–726) that the claims
touch.  `received_quantity_kg` is a non-null decimal; the Python division in
the yield computation raises on a zero divisor, so yield statements below
carry a positivity hypothesis. -/
structure ToastingProcess where
  process_status : ProcessStatus
  started_at : Option Nat
  completed_at : Option Nat
  received_quantity_kg : ℚ
  processed_quantity_kg : Option ℚ
  yield_percentage : Option ℚ
  current_temperature_celsius : Option ℚ
  current_time_elapsed_minutes : Nat
  current_humidity_percentage : Option ℚ
  current_weight_loss_kg : Option ℚ
  final_grain_quality : Option GrainQuality
  final_quality_notes : PyStr
deriving DecidableEq

/-- `ToastingProcess.save` (models.py 672–676): recompute the yield when the
process is completed and `processed_quantity_kg` is truthy. -/
def ToastingProcess.save (tp : ToastingProcess) : ToastingProcess :=
  if tp.process_status = .completed ∧ qTruthy tp.processed_quantity_kg then
    { tp with yield_percentage := some (tp.processed_quantity_kg.getD 0 /
                                         tp.received_quantity_kg * 100) }
  else tp

/-- `ToastingProcess.can_start_toasting` (models.py 678–680). -/
def ToastingProcess.can_start_toasting (tp : ToastingProcess) : Bool :=
  tp.process_status = .received

/-- `ToastingProcess.can_monitor_toasting` (models.py 682–684). -/
def ToastingProcess.can_monitor_toasting (tp : ToastingProcess) : Bool :=
  tp.process_status = .started ∨ tp.process_status = .monitoring

/-- `ToastingProcess.can_complete_toasting` (models.py 686–688). -/
def ToastingProcess.can_complete_toasting (tp : ToastingProcess) : Bool :=
  tp.process_status = .monitoring

/-- `ToastingProcess.start_process` (models.py 690–695): guarded by
`can_start_toasting`; a guard failure is a silent no-op. -/
def ToastingProcess.start_process (tp : ToastingProcess) (now : Nat) : ToastingProcess :=
  if tp.can_start_toasting then
    ToastingProcess.save { tp with process_status := .started, started_at := some now }
  else tp

/-- `ToastingProcess.update_monitoring` (models.py 697–707): guarded by
`can_monitor_toasting`; moves the sub-state to `monitoring`. -/
def ToastingProcess.update_monitoring (tp : ToastingProcess) (temperature : ℚ)
    (time_elapsed : Nat) (humidity : Option ℚ) (weight_loss : Option ℚ) : ToastingProcess :=
  if tp.can_monitor_toasting then
    let tp1 := { tp with process_status := .monitoring,
                         current_temperature_celsius := some temperature,
                         current_time_elapsed_minutes := time_elapsed }
    let tp2 := match humidity with
               | some h => { tp1 with current_humidity_percentage := some h }
               | none => tp1
    let tp3 := match weight_loss with
               | some w => { tp2 with current_weight_loss_kg := some w }
               | none => tp2
    ToastingProcess.save tp3
  else tp

/-- `ToastingProcess.complete_process` (models.py 709–718): guarded by
`can_complete_toasting`; records the processed quantity, the final grain
quality and notes, computes the yield, and saves. -/
def ToastingProcess.complete_process (tp : ToastingProcess) (processed_quantity : ℚ)
    (final_quality : GrainQuality) (notes : PyStr) (now : Nat) : ToastingProcess :=
  if tp.can_complete_toasting then
    ToastingProcess.save
      { tp with process_status := .completed,
                completed_at := some now,
                processed_quantity_kg := some processed_quantity,
                final_grain_quality := some final_quality,
                final_quality_notes := notes,
                yield_percentage := some (processed_quantity / tp.received_quantity_kg * 100) }
  else tp

/-- An `ActivityLog` row (models.py 946–1025), reduced to the fields the
audit claims inspect (the free-text description is elided). -/
structure ActivityLog where
  user : Option Nat
  company : Option Nat
  related_order : Option Nat
deriving DecidableEq

/-- `ActivityLog.objects.create(...)`: append the audit row, or raise (the
spec's `AuditEmitterError`, e.g. storage unavailable) when the emitter fails
(`emitterFails = true`). -/
def activity_create (emitterFails : Bool) (logs : List ActivityLog) (entry : ActivityLog) :
    Except ViewError (List ActivityLog) :=
  if emitterFails then .error .auditError else .ok (logs ++ [entry])

/-- `TenantMiddleware.log_activity` (middleware.py 100–116): the
`ActivityLog.objects.create` call is wrapped in `try/except Exception`, so an
emitter failure is logged and swallowed and the request proceeds with the
log store unchanged. -/
def log_activity (emitterFails : Bool) (logs : List ActivityLog) (entry : ActivityLog) :
    List ActivityLog :=
  match activity_create emitterFails logs entry with
  | .ok newLogs => newLogs
  | .error _ => logs

/-- The completion branch of `TostionCreateView.form_valid`
(views.py 961–1022), inside `with transaction.atomic()`: complete the
toasting sub-process, run `complete_toasting()` on the order, set
`toasted_by`, save, then `ActivityLog.objects.create(...)` — the audit write
is NOT guarded by try/except, so when the emitter fails the exception
propagates and the atomic block rolls back every write of the operation
(an error result carries no state). -/
def tostion_completion (emitterFails : Bool) (tp : ToastingProcess) (o : Order)
    (u now : Nat) (processed_quantity : ℚ) (final_quality : GrainQuality) (notes : PyStr)
    (nit date : PyStr) (companyNumbers : List PyStr) (logs : List ActivityLog) :
    Except ViewError (ToastingProcess × Order × List ActivityLog) :=
  let tp1 := tp.complete_process processed_quantity final_quality notes now
  match o.complete_toasting now with
  | .error _ => .error .transitionNotAllowed
  | .ok o1 =>
    match Order.save { o1 with toasted_by := some u } false nit date companyNumbers with
    | none => .error .saveFailed
    | some o2 =>
      match activity_create emitterFails logs
          { user := some u, company := some o2.company, related_order := some o2.id } with
      | .error e => .error e
      | .ok newLogs => .ok (tp1, o2, newLogs)

/-- The fields of `Invoice` (models.py 807–943) that the claims touch. -/
structure Invoice where
  company : Nat
  subtotal : ℚ
  tax_rate : ℚ
  tax_amount : ℚ
  total_amount : ℚ
  invoice_number : PyStr
deriving DecidableEq

/-- `Invoice.save` (models.py 890–899): recompute `tax_amount` and
`total_amount` from `subtotal` and `tax_rate` (no rounding is applied in the
source), then synthesize `invoice_number` when it is falsy. -/
def Invoice.save (inv : Invoice) (nit date : PyStr) (companyNumbers : List PyStr) :
    Option Invoice :=
  let tax := inv.subtotal * (inv.tax_rate / 100)
  let total := inv.subtotal + tax
  let num? := if inv.invoice_number = [] then generate_invoice_number nit date companyNumbers
              else some inv.invoice_number
  num?.map (fun num => { inv with tax_amount := tax, total_amount := total,
                                  invoice_number := num })

/-- Rounding to two decimals as claim C8 states it (`round(x, 2)`), written
from the spec's words for comparison with the code. -/
def spec_round2 (x : ℚ) : ℚ := (round (x * 100) : ℤ) / 100

/-- `Company.STATUS_CHOICES` (models.py 15–19). -/
inductive CompanyStatus where
  | active
  | suspended
  | cancelled
deriving DecidableEq

/-- The fields of `Company` (models.py 11–92) that the claims touch. -/
structure Company where
  name : PyStr
  status : CompanyStatus
  suspended_at : Option Nat
  suspension_reason : PyStr
deriving DecidableEq

/-- A raised `django.core.exceptions.ValidationError`. -/
inductive PyValidationError where
  | validationError
deriving DecidableEq

/-- `Company.suspend` (models.py 65–72): raises unless the status is
`active`; sets status, `suspended_at`, and the reason. -/
def Company.suspend (c : Company) (reason : PyStr) (now : Nat) :
    Except PyValidationError Company :=
  if c.status ≠ .active then .error .validationError
  else .ok { c with status := .suspended, suspended_at := some now,
                    suspension_reason := reason }

/-- `Company.activate` (models.py 74–81): raises when the status is
`cancelled`; sets status to `active` and clears `suspended_at` and the
reason. -/
def Company.activate (c : Company) : Except PyValidationError Company :=
  if c.status = .cancelled then .error .validationError
  else .ok { c with status := .active, suspended_at := none, suspension_reason := [] }

/-- `Company.cancel` (models.py 83–87): no guard; sets status to `cancelled`
and overwrites the reason, leaving `suspended_at` untouched. -/
def Company.cancel (c : Company) (reason : PyStr) : Company :=
  { c with status := .cancelled, suspension_reason := reason }

/-- Boolean success of an `Except` result. -/
def exceptIsOk {ε α : Type} : Except ε α → Bool
  | .ok _ => true
  | .error _ => false

/-- A concrete registered order of tenant 1 used to instantiate theorems. -/
def baseOrder : Order :=
  { id := 1, company := 1, order_number := ['N', '1'],
    quantity_kg := some 50, coffee_type := .excelso, original_coffee_type := some .excelso,
    kg_despues_trilla := none, porcentaje_reduccion_excelso := none, state := .registered,
    toasting_started_at := none, toasting_completed_at := none, production_started_at := none,
    production_completed_at := none, billed_at := none, delivered_at := none,
    toasted_by := none, produced_by := none, billed_by := none, delivered_by := none }

/-- An order awaiting its first persist (no number assigned yet). -/
def o_noNumber : Order := { baseOrder with order_number := [] }

/-- `baseOrder` after a successful start-toasting at instant 3 by user 7. -/
def baseOrderToasted : Order :=
  { baseOrder with
    state := .in_toasting, toasting_started_at := some 3, toasted_by := some 7 }

/-- `baseOrder` in state `billed` (all timestamps and attributions unset). -/
def o_billed : Order := { baseOrder with state := .billed }

/-- The result of `deliver_order` on `o_billed` at instant 7. -/
def o_deliveredAt7 : Order := { baseOrder with state := .delivered, delivered_at := some 7 }

/-- `baseOrder` in state `toasting_complete`. -/
def o_toastComplete : Order := { baseOrder with state := .toasting_complete }

/-- The result of `start_production` on `o_toastComplete` at instant 5. -/
def o_inProductionAt5 : Order :=
  { baseOrder with state := .in_production, production_started_at := some 5 }

/-- `baseOrder` in state `in_toasting`. -/
def o_inToasting : Order := { baseOrder with state := .in_toasting }

/-- A cps order trilled to excelso with a zero pre-trilla quantity. -/
def o_cpsZero : Order :=
  { baseOrder with
    original_coffee_type := some .cps, quantity_kg := some 0, kg_despues_trilla := some 5 }

/-- `o_cpsZero` after `save`: the code clears both derived fields. -/
def o_cpsZeroCleared : Order :=
  { o_cpsZero with kg_despues_trilla := none, porcentaje_reduccion_excelso := none }

/-- A cps order trilled to excelso: 50 kg before, 40 kg after. -/
def o_cps5040 : Order :=
  { baseOrder with original_coffee_type := some .cps, kg_despues_trilla := some 40 }

/-- The position of a sub-state along the chain
`received → started → monitoring → completed` of spec §4.5. -/
def sub_state_rank : ProcessStatus → Nat
  | .received => 0
  | .started => 1
  | .monitoring => 2
  | .completed => 3

/-- A concrete `aux_tostion` principal of tenant 1 (active company). -/
def p_tostion : Principal :=
  { id := 7, role := .aux_tostion, company := some 1, company_active := true }

/-- A concrete company tax id. -/
def nit0 : PyStr := ['9', '0', '0']

/-- A concrete date string (`YYYYMMDD`). -/
def date0 : PyStr := ['2', '0', '2', '6', '0', '1', '0', '1']

/-- One existing order number for the same tenant, prefix and day:
sequence 001. -/
def existing0 : List PyStr := [maq_base nit0 date0 ++ '-' :: pad3 1]

/-- A concrete toasting sub-process in sub-state `received`. -/
def baseTP : ToastingProcess :=
  { process_status := .received, started_at := none, completed_at := none,
    received_quantity_kg := 50, processed_quantity_kg := none, yield_percentage := none,
    current_temperature_celsius := none, current_time_elapsed_minutes := 0,
    current_humidity_percentage := none, current_weight_loss_kg := none,
    final_grain_quality := none, final_quality_notes := [] }

/-- `baseTP` in sub-state `monitoring`. -/
def tp_monitoring : ToastingProcess := { baseTP with process_status := .monitoring }

/-- A concrete active company. -/
def baseCompany : Company :=
  { name := ['A'], status := .active, suspended_at := none, suspension_reason := [] }

/-- `baseCompany` after a successful suspension at instant 3. -/
def baseCompanySuspended : Company :=
  { baseCompany with
    status := .suspended, suspended_at := some 3, suspension_reason := ['R'] }

/-- A concrete invoice whose exact total has three decimals. -/
def baseInvoice : Invoice :=
  { company := 1, subtotal := 1/10, tax_rate := 19, tax_amount := 0, total_amount := 0,
    invoice_number := ['F', '1'] }

section theorems

/-- Orders are identified by their primary key: in a database whose rows have
pairwise-distinct ids, two rows sharing an id are the same row. -/
theorem mem_id_unique {db : List Order} {o m : Order}
    (hp : db.Pairwise (fun a b => a.id ≠ b.id))
    (ho : o ∈ db) (hm : m ∈ db) (h : m.id = o.id) : m = o := by
  induction db with
  | nil => cases ho
  | cons a l ih =>
    rw [List.pairwise_cons] at hp
    rcases List.mem_cons.mp ho with ho1 | ho1 <;> rcases List.mem_cons.mp hm with hm1 | hm1
    · rw [ho1, hm1]
    · subst ho1; exact absurd h (hp.1 m hm1).symm
    · subst hm1; exact absurd h.symm (hp.1 o ho1).symm
    · exact ih hp.2 ho1 hm1

/-- `Order.save` only writes `order_number`, `original_coffee_type`,
`kg_despues_trilla` and `porcentaje_reduccion_excelso`: every other field of
the saved row equals the field of the input row. -/
theorem Order.save_frame {o o' : Order} {adding : Bool} {nit date : PyStr}
    {ns : List PyStr} (h : Order.save o adding nit date ns = some o') :
    o'.id = o.id ∧ o'.company = o.company ∧ o'.state = o.state ∧
    o'.quantity_kg = o.quantity_kg ∧ o'.coffee_type = o.coffee_type ∧
    o'.toasting_started_at = o.toasting_started_at ∧
    o'.toasting_completed_at = o.toasting_completed_at ∧
    o'.production_started_at = o.production_started_at ∧
    o'.production_completed_at = o.production_completed_at ∧
    o'.billed_at = o.billed_at ∧ o'.delivered_at = o.delivered_at ∧
    o'.toasted_by = o.toasted_by ∧ o'.produced_by = o.produced_by ∧
    o'.billed_by = o.billed_by ∧ o'.delivered_by = o.delivered_by := by
  unfold Order.save at h
  split at h
  · exact Option.noConfusion h
  · injection h with h
    subst h
    exact ⟨rfl, rfl, rfl, rfl, rfl, rfl, rfl, rfl, rfl, rfl, rfl, rfl, rfl, rfl, rfl⟩

/-- `Order.start_toasting` never changes the company of the order. -/
theorem Order.start_toasting_company {o o' : Order} {now : Nat}
    (h : o.start_toasting now = .ok o') : o'.company = o.company := by
  unfold Order.start_toasting at h
  split at h
  · injection h with h; subst h; rfl
  · exact Except.noConfusion h

/-- When the order number is non-empty, `Order.save` keeps it and succeeds. -/
theorem Order.save_of_number_ne {o : Order} {adding : Bool} {nit date : PyStr}
    {ns : List PyStr} (h : o.order_number ≠ []) :
    Order.save o adding nit date ns =
      some { o.save_derived adding with order_number := o.order_number } := by
  unfold Order.save
  rw [if_neg h]

/-- Recomputing the shrink pair from its own output changes nothing. -/
theorem shrink_update_idem (orig : Option CoffeeType) (coffee : CoffeeType)
    (q kg : Option ℚ) :
    shrink_update orig coffee q (shrink_update orig coffee q kg).1 =
      shrink_update orig coffee q kg := by
  unfold shrink_update
  by_cases hA : orig = some CoffeeType.cps ∧ coffee = CoffeeType.excelso
  · by_cases hB : qTruthy q = true ∧ kg ≠ none
    · by_cases hC : q.getD 0 > 0
      · simp only [if_pos hA, if_pos hB, if_pos hC]
      · simp only [if_pos hA, if_pos hB, if_neg hC]
    · simp only [if_pos hA, if_neg hB]
      rw [if_neg (fun h => h.2 rfl)]
  · simp only [if_neg hA]

/-- C1.  For every order and target state, the transition operation (the
union of the FSM methods, keyed by target) succeeds exactly when the pair
(current state, target) is an edge of the spec's §4.2 transition table; its
success also coincides with `Order.can_transition_to`; and on an order in a
terminal state (`delivered` or `cancelled`) every request fails with
`TransitionNotAllowed` (the spec's `IllegalTransitionError`). -/
theorem claim_C1_transition_table (o : Order) (target : OState) (now : Nat) :
    (exceptIsOk (requestTransition o target now) = true ↔
        target ∈ spec_transition_table o.state) ∧
    (exceptIsOk (requestTransition o target now) = o.can_transition_to target) ∧
    (o.state = .delivered ∨ o.state = .cancelled →
        requestTransition o target now = .error .transitionNotAllowed) := by
  refine ⟨?_, ?_, ?_⟩
  · cases h : o.state <;> cases target <;>
      simp [requestTransition, Order.start_toasting, Order.complete_toasting,
            Order.start_production, Order.complete_production, Order.bill_order,
            Order.deliver_order, Order.cancel_order, exceptIsOk,
            spec_transition_table, h]
  · cases h : o.state <;> cases target <;>
      simp [requestTransition, Order.start_toasting, Order.complete_toasting,
            Order.start_production, Order.complete_production, Order.bill_order,
            Order.deliver_order, Order.cancel_order, exceptIsOk,
            Order.can_transition_to, valid_transitions, h, List.contains]
  · rintro (h | h) <;> cases target <;>
      simp [requestTransition, Order.start_toasting, Order.complete_toasting,
            Order.start_production, Order.complete_production, Order.bill_order,
            Order.deliver_order, Order.cancel_order, h]

/-- Witness for C1: on a concrete delivered order, a transition request
fails with `TransitionNotAllowed`. -/
theorem claim_C1_transition_table_witness :
    requestTransition { baseOrder with state := .delivered } .in_toasting 0 =
      .error .transitionNotAllowed :=
  (claim_C1_transition_table { baseOrder with state := .delivered } .in_toasting 0).2.2
    (Or.inl rfl)

/-- C2.  Multi-tenant isolation on the transition view `StartToastingView`:
a principal that is not super_admin and whose tenant differs from the
order's cannot get a successful result on that order (the tenant-filtered
lookup rejects the request before any write, so the store is untouched);
and any successful result modifies only orders of the principal's own
tenant. -/
theorem claim_C2_tenant_isolation :
    (∀ (p : Principal) (db : List Order) (o : Order) (now : Nat) (nit date : PyStr),
        p.role ≠ Role.super_admin → o ∈ db →
        db.Pairwise (fun a b => a.id ≠ b.id) → some o.company ≠ p.company →
        exceptIsOk (startToastingPost p db o.id now nit date) = false) ∧
    (∀ (p : Principal) (db : List Order) (oid now : Nat) (nit date : PyStr)
        (db' : List Order) (o' : Order),
        startToastingPost p db oid now nit date = Except.ok (db', o') →
        some o'.company = p.company ∧ ∀ x ∈ db', x ∈ db ∨ some x.company = p.company) := by
  constructor
  · intro p db o now nit date hrole ho hpw hco
    cases hr : rol_requerido [.aux_tostion, .admin_company, .super_admin] p with
    | some e => simp [startToastingPost, hr, exceptIsOk]
    | none =>
      have hfind : db.find? (fun x =>
          x.id == o.id && some x.company == p.company && x.state == OState.registered) = none := by
        rw [List.find?_eq_none]
        intro m hm hpred
        simp only [Bool.and_eq_true, beq_iff_eq] at hpred
        obtain ⟨⟨hid, hcomp⟩, -⟩ := hpred
        have hmo : m = o := mem_id_unique hpw ho hm hid
        rw [hmo] at hcomp
        exact hco hcomp
      simp [startToastingPost, hr, hfind, exceptIsOk]
  · intro p db oid now nit date db' o' h
    unfold startToastingPost at h
    split at h
    · exact Except.noConfusion h
    · split at h
      · exact Except.noConfusion h
      · next m hfind =>
        split at h
        · exact Except.noConfusion h
        · next m1 hst =>
          split at h
          · exact Except.noConfusion h
          · next saved hsave =>
            injection h with h
            injection h with h1 h2
            subst h1
            subst h2
            have hcomp : some m.company = p.company := by
              have hpred := List.find?_some hfind
              simp only [Bool.and_eq_true, beq_iff_eq] at hpred
              exact hpred.1.2
            have hm1 : m1.company = m.company := Order.start_toasting_company hst
            have hsavedc : saved.company = m.company := by
              have := (Order.save_frame hsave).2.1
              rw [this]
              exact hm1
            constructor
            · rw [hsavedc]; exact hcomp
            · intro x hx
              rcases List.mem_map.mp hx with ⟨y, hy, rfl⟩
              by_cases hid : (y.id == oid) = true
              · rw [if_pos hid]
                right
                rw [hsavedc]
                exact hcomp
              · rw [if_neg hid]
                left
                exact hy

/-- Witness for C2: a concrete `aux_tostion` principal of tenant 2 cannot
transition tenant 1's order. -/
theorem claim_C2_tenant_isolation_witness :
    exceptIsOk (startToastingPost { p_tostion with company := some 2 }
      [baseOrder] 1 5 nit0 date0) = false :=
  claim_C2_tenant_isolation.1 { p_tostion with company := some 2 }
    [baseOrder] baseOrder 5 nit0 date0 (by decide) (by simp) (by simp) (by decide)

/-- C3 counterexample: a concrete principal with role `aux_tostion` (tenant 1,
active company) requests the start-toasting transition on tenant 1's order
while its state is `registered`; the request SUCCEEDS (the order moves to
`in_toasting` with `toasting_started_at` and `toasted_by` set), instead of
failing with an `AuthorizationError` as the claim states. -/
theorem claim_C3_counterexample :
    startToastingPost p_tostion [baseOrder] 1 3 nit0 date0 =
      Except.ok ([baseOrderToasted], baseOrderToasted) := by
  rfl

/-- C3 (amended).  `StartToastingView`'s authorization is a role allow-list
(`aux_tostion`, `admin_company`, `super_admin`) checked BEFORE the order
lookup: a principal with an active company whose role is outside the list
fails with a permission denial (the spec's `AuthorizationError`) regardless
of the order's state — never with `IllegalTransitionError`; and a principal
with role `aux_tostion` of the order's own tenant IS allowed to request the
transition while the order is `registered` (the request succeeds). -/
theorem claim_C3_amended (p : Principal) (db : List Order) (now : Nat) (nit date : PyStr) :
    (∀ (oid : Nat), p.company ≠ none → p.company_active = true →
        p.role ∉ ([.aux_tostion, .admin_company, .super_admin] : List Role) →
        startToastingPost p db oid now nit date = .error .permissionDenied) ∧
    (∀ (o : Order), p.role = .aux_tostion → p.company = some o.company →
        p.company_active = true → o ∈ db → db.Pairwise (fun a b => a.id ≠ b.id) →
        o.state = .registered → o.order_number ≠ [] →
        exceptIsOk (startToastingPost p db o.id now nit date) = true) := by
  constructor
  · intro oid hc ha hrole
    have hr : rol_requerido [.aux_tostion, .admin_company, .super_admin] p =
        some .permissionDenied := by
      unfold rol_requerido
      rw [if_neg (fun hand => hc hand.1),
          if_neg (fun hand => Bool.noConfusion (ha.symm.trans hand.2)),
          if_pos hrole]
    simp [startToastingPost, hr]
  · intro o hrole hcomp ha ho hpw hstate hnum
    have hr : rol_requerido [.aux_tostion, .admin_company, .super_admin] p = none := by
      unfold rol_requerido
      rw [if_neg (fun hand => Option.noConfusion (hcomp.symm.trans hand.1)),
          if_neg (fun hand => Bool.noConfusion (ha.symm.trans hand.2))]
      rw [if_neg (by intro hmem; exact hmem (by rw [hrole]; exact List.mem_cons_self _ _))]
    have hpred : (fun x => x.id == o.id && some x.company == p.company &&
        x.state == OState.registered) o = true := by
      simp [hcomp, hstate]
    cases hf : db.find? (fun x =>
        x.id == o.id && some x.company == p.company && x.state == OState.registered) with
    | none => exact absurd hpred (List.find?_eq_none.mp hf o ho)
    | some m =>
      have hm : m = o := by
        have hp2 := List.find?_some hf
        simp only [Bool.and_eq_true, beq_iff_eq] at hp2
        exact mem_id_unique hpw ho (List.mem_of_find?_eq_some hf) hp2.1.1
      subst hm
      have hst : m.start_toasting now =
          .ok { m with state := .in_toasting, toasting_started_at := some now } := by
        unfold Order.start_toasting
        rw [if_pos hstate]
      simp only [startToastingPost, hr, hf, hst, Order.save]
      rw [if_neg hnum]
      simp [exceptIsOk]

/-- Witness for the amended C3: a concrete `aux_registro` principal is
rejected with the permission denial, and the concrete success of
`claim_C3_counterexample`'s scenario is reproduced through the theorem. -/
theorem claim_C3_amended_witness :
    startToastingPost { p_tostion with role := .aux_registro } [baseOrder] 1 3 nit0 date0 =
      .error .permissionDenied ∧
    exceptIsOk (startToastingPost p_tostion [baseOrder] 1 3 nit0 date0) = true :=
  ⟨(claim_C3_amended { p_tostion with role := .aux_registro } [baseOrder] 3 nit0 date0).1
      1 (by decide) (by decide) (by decide),
   (claim_C3_amended p_tostion [baseOrder] 3 nit0 date0).2 baseOrder
      (by decide) (by decide) (by decide) (by simp) (by simp) (by decide) (by decide)⟩

/-- C4 counterexample: the successful transition `billed → delivered`
(`deliver_order` on a concrete billed order) stamps `delivered_at` but sets
NO attribution field — in particular `delivered_by` stays `none`, and no code
path anywhere in the repository assigns `delivered_by` — falsifying the
claim's "exactly one attribution field is set, the pair matching the target
state". -/
theorem claim_C4_counterexample :
    Order.deliver_order o_billed 7 = Except.ok o_deliveredAt7 ∧
    o_billed.delivered_by = none ∧ o_deliveredAt7.delivered_by = none ∧
    o_deliveredAt7.toasted_by = none ∧ o_deliveredAt7.produced_by = none ∧
    o_deliveredAt7.billed_by = none ∧ o_deliveredAt7.delivered_at = some 7 :=
  ⟨rfl, rfl, rfl, rfl, rfl, rfl, rfl⟩

/-- C4 (amended).  Every successful transition stamps exactly the timestamp
matching the target state (none for `cancelled`) and leaves every other
timestamp at its prior value; the four view-mediated transitions
(`StartToastingView`, `TostionCreateView` completion, `ProduccionCreateView`,
`FacturacionCreateView`) additionally set exactly the attribution field the
view assigns (`toasted_by`, `toasted_by`, `produced_by`, `billed_by`) and
leave the other attribution fields at their prior values; the transitions to
`in_production` and `delivered`, and the one to `cancelled`, set no
attribution field at all. -/
theorem claim_C4_amended (o : Order) (u now : Nat) (nit date : PyStr) (ns : List PyStr) :
    (∀ o', start_toasting_step o u now nit date ns = some o' →
        o'.state = .in_toasting ∧ o'.toasting_started_at = some now ∧
        o'.toasted_by = some u ∧
        o'.toasting_completed_at = o.toasting_completed_at ∧
        o'.production_started_at = o.production_started_at ∧
        o'.production_completed_at = o.production_completed_at ∧
        o'.billed_at = o.billed_at ∧ o'.delivered_at = o.delivered_at ∧
        o'.produced_by = o.produced_by ∧ o'.billed_by = o.billed_by ∧
        o'.delivered_by = o.delivered_by) ∧
    (∀ o', complete_toasting_step o u now nit date ns = some o' →
        o'.state = .toasting_complete ∧ o'.toasting_completed_at = some now ∧
        o'.toasted_by = some u ∧
        o'.toasting_started_at = o.toasting_started_at ∧
        o'.production_started_at = o.production_started_at ∧
        o'.production_completed_at = o.production_completed_at ∧
        o'.billed_at = o.billed_at ∧ o'.delivered_at = o.delivered_at ∧
        o'.produced_by = o.produced_by ∧ o'.billed_by = o.billed_by ∧
        o'.delivered_by = o.delivered_by) ∧
    (∀ o', complete_production_step o u now nit date ns = some o' →
        o'.state = .ready_for_billing ∧ o'.production_completed_at = some now ∧
        o'.produced_by = some u ∧
        o'.toasting_started_at = o.toasting_started_at ∧
        o'.toasting_completed_at = o.toasting_completed_at ∧
        o'.production_started_at = o.production_started_at ∧
        o'.billed_at = o.billed_at ∧ o'.delivered_at = o.delivered_at ∧
        o'.toasted_by = o.toasted_by ∧ o'.billed_by = o.billed_by ∧
        o'.delivered_by = o.delivered_by) ∧
    (∀ o', bill_order_step o u now nit date ns = some o' →
        o'.state = .billed ∧ o'.billed_at = some now ∧ o'.billed_by = some u ∧
        o'.toasting_started_at = o.toasting_started_at ∧
        o'.toasting_completed_at = o.toasting_completed_at ∧
        o'.production_started_at = o.production_started_at ∧
        o'.production_completed_at = o.production_completed_at ∧
        o'.delivered_at = o.delivered_at ∧
        o'.toasted_by = o.toasted_by ∧ o'.produced_by = o.produced_by ∧
        o'.delivered_by = o.delivered_by) ∧
    (∀ o', o.start_production now = .ok o' →
        o'.state = .in_production ∧ o'.production_started_at = some now ∧
        o'.toasted_by = o.toasted_by ∧ o'.produced_by = o.produced_by ∧
        o'.billed_by = o.billed_by ∧ o'.delivered_by = o.delivered_by ∧
        o'.toasting_started_at = o.toasting_started_at ∧
        o'.toasting_completed_at = o.toasting_completed_at ∧
        o'.production_completed_at = o.production_completed_at ∧
        o'.billed_at = o.billed_at ∧ o'.delivered_at = o.delivered_at) ∧
    (∀ o', o.deliver_order now = .ok o' →
        o'.state = .delivered ∧ o'.delivered_at = some now ∧
        o'.toasted_by = o.toasted_by ∧ o'.produced_by = o.produced_by ∧
        o'.billed_by = o.billed_by ∧ o'.delivered_by = o.delivered_by ∧
        o'.toasting_started_at = o.toasting_started_at ∧
        o'.toasting_completed_at = o.toasting_completed_at ∧
        o'.production_started_at = o.production_started_at ∧
        o'.production_completed_at = o.production_completed_at ∧
        o'.billed_at = o.billed_at) ∧
    (∀ o', o.cancel_order = .ok o' →
        o'.state = .cancelled ∧
        o'.toasting_started_at = o.toasting_started_at ∧
        o'.toasting_completed_at = o.toasting_completed_at ∧
        o'.production_started_at = o.production_started_at ∧
        o'.production_completed_at = o.production_completed_at ∧
        o'.billed_at = o.billed_at ∧ o'.delivered_at = o.delivered_at ∧
        o'.toasted_by = o.toasted_by ∧ o'.produced_by = o.produced_by ∧
        o'.billed_by = o.billed_by ∧ o'.delivered_by = o.delivered_by) := by
  refine ⟨?_, ?_, ?_, ?_, ?_, ?_, ?_⟩
  · intro o' h
    unfold start_toasting_step at h
    split at h
    · exact Option.noConfusion h
    · next o1 hst =>
      unfold Order.start_toasting at hst
      split at hst
      · injection hst with he
        subst he
        obtain ⟨-, -, h3, -, -, h6, h7, h8, h9, h10, h11, h12, h13, h14, h15⟩ :=
          Order.save_frame h
        exact ⟨h3, h6, h12, h7, h8, h9, h10, h11, h13, h14, h15⟩
      · exact Except.noConfusion hst
  · intro o' h
    unfold complete_toasting_step at h
    split at h
    · exact Option.noConfusion h
    · next o1 hst =>
      unfold Order.complete_toasting at hst
      split at hst
      · injection hst with he
        subst he
        obtain ⟨-, -, h3, -, -, h6, h7, h8, h9, h10, h11, h12, h13, h14, h15⟩ :=
          Order.save_frame h
        exact ⟨h3, h7, h12, h6, h8, h9, h10, h11, h13, h14, h15⟩
      · exact Except.noConfusion hst
  · intro o' h
    unfold complete_production_step at h
    split at h
    · exact Option.noConfusion h
    · next o1 hst =>
      unfold Order.complete_production at hst
      split at hst
      · injection hst with he
        subst he
        obtain ⟨-, -, h3, -, -, h6, h7, h8, h9, h10, h11, h12, h13, h14, h15⟩ :=
          Order.save_frame h
        exact ⟨h3, h9, h13, h6, h7, h8, h10, h11, h12, h14, h15⟩
      · exact Except.noConfusion hst
  · intro o' h
    unfold bill_order_step at h
    split at h
    · exact Option.noConfusion h
    · next o1 hst =>
      unfold Order.bill_order at hst
      split at hst
      · injection hst with he
        subst he
        obtain ⟨-, -, h3, -, -, h6, h7, h8, h9, h10, h11, h12, h13, h14, h15⟩ :=
          Order.save_frame h
        exact ⟨h3, h10, h14, h6, h7, h8, h9, h11, h12, h13, h15⟩
      · exact Except.noConfusion hst
  · intro o' h
    unfold Order.start_production at h
    split at h
    · injection h with he
      subst he
      exact ⟨rfl, rfl, rfl, rfl, rfl, rfl, rfl, rfl, rfl, rfl, rfl⟩
    · exact Except.noConfusion h
  · intro o' h
    unfold Order.deliver_order at h
    split at h
    · injection h with he
      subst he
      exact ⟨rfl, rfl, rfl, rfl, rfl, rfl, rfl, rfl, rfl, rfl, rfl⟩
    · exact Except.noConfusion h
  · intro o' h
    unfold Order.cancel_order at h
    split at h
    · injection h with he
      subst he
      exact ⟨rfl, rfl, rfl, rfl, rfl, rfl, rfl, rfl, rfl, rfl, rfl⟩
    · exact Except.noConfusion h

/-- Witness for the amended C4: the `toasting_complete → in_production`
transition at a concrete order stamps `production_started_at` and leaves all
four attribution fields at their prior (unset) values. -/
theorem claim_C4_amended_witness :
    o_inProductionAt5.state = .in_production ∧
    o_inProductionAt5.production_started_at = some 5 ∧
    o_inProductionAt5.toasted_by = o_toastComplete.toasted_by ∧
    o_inProductionAt5.produced_by = o_toastComplete.produced_by ∧
    o_inProductionAt5.billed_by = o_toastComplete.billed_by ∧
    o_inProductionAt5.delivered_by = o_toastComplete.delivered_by ∧
    o_inProductionAt5.toasting_started_at = o_toastComplete.toasting_started_at ∧
    o_inProductionAt5.toasting_completed_at = o_toastComplete.toasting_completed_at ∧
    o_inProductionAt5.production_completed_at = o_toastComplete.production_completed_at ∧
    o_inProductionAt5.billed_at = o_toastComplete.billed_at ∧
    o_inProductionAt5.delivered_at = o_toastComplete.delivered_at :=
  (claim_C4_amended o_toastComplete 0 5 nit0 date0 []).2.2.2.2.1 o_inProductionAt5 rfl

/-- C5 counterexample: at a concrete valid input (sub-process `monitoring`,
order `in_toasting`), the toasting-completion operation succeeds when the
audit emitter works, but the SAME operation with a failing emitter returns
the audit error: the unguarded `ActivityLog.objects.create` inside
`transaction.atomic()` blocks the business operation and rolls back its
state change, falsifying "always recovered locally, never propagates". -/
theorem claim_C5_counterexample :
    tostion_completion true tp_monitoring o_inToasting 7 4 45 .good [] nit0 date0 [] [] =
      .error .auditError ∧
    exceptIsOk (tostion_completion false tp_monitoring o_inToasting 7 4 45 .good []
      nit0 date0 [] []) = true :=
  ⟨rfl, rfl⟩

/-- C5 (amended).  Audit-emitter failures are recovered locally only in the
middleware's navigation logger `log_activity` (the request proceeds, the log
store is simply left unchanged); in the business views the audit write runs
unguarded inside the operation's atomic transaction, so with a failing
emitter the toasting-completion operation never succeeds — the failure
blocks the operation and rolls back its writes. -/
theorem claim_C5_amended :
    (∀ (logs : List ActivityLog) (entry : ActivityLog),
        log_activity true logs entry = logs ∧
        log_activity false logs entry = logs ++ [entry]) ∧
    (∀ (tp : ToastingProcess) (o : Order) (u now : Nat) (q : ℚ) (g : GrainQuality)
        (notes nit date : PyStr) (ns : List PyStr) (logs : List ActivityLog),
        exceptIsOk (tostion_completion true tp o u now q g notes nit date ns logs) = false) := by
  constructor
  · intro logs entry
    exact ⟨rfl, rfl⟩
  · intro tp o u now q g notes nit date ns logs
    unfold tostion_completion
    split
    · rfl
    · split
      · rfl
      · rfl

/-- Witness for the amended C5: the middleware logger swallows a concrete
emitter failure, and the concrete completion operation of
`claim_C5_counterexample` is blocked under a failing emitter. -/
theorem claim_C5_amended_witness :
    log_activity true [] { user := some 7, company := some 1, related_order := none } = [] ∧
    exceptIsOk (tostion_completion true tp_monitoring o_inToasting 7 4 45 .good []
      nit0 date0 [] []) = false :=
  ⟨(claim_C5_amended.1 [] { user := some 7, company := some 1, related_order := none }).1,
   claim_C5_amended.2 tp_monitoring o_inToasting 7 4 45 .good [] nit0 date0 [] []⟩

/-- C6 counterexample: an order with `original_coffee_type = cps`,
`coffee_type = excelso`, a PRESENT BUT ZERO `quantity_kg` and a present
`kg_despues_trilla`: the claim demands the shrink be recomputed as `0`, but
the code's truthiness test `if self.quantity_kg` is false at `0`, so the
save clears BOTH derived fields to null instead. -/
theorem claim_C6_counterexample :
    Order.save o_cpsZero false nit0 date0 [] = some o_cpsZeroCleared ∧
    o_cpsZeroCleared.porcentaje_reduccion_excelso = none ∧
    o_cpsZeroCleared.kg_despues_trilla = none :=
  ⟨rfl, rfl, rfl⟩

/-- C6 (amended).  On every save: when the effective original type is `cps`,
the current type `excelso`, the pre-trilla quantity TRUTHY (present and
non-zero) and the post-trilla quantity present, the shrink percentage is
recomputed as `(pre − post) / pre × 100` when `pre > 0` and as `0`
otherwise (i.e. for negative `pre`), and `kg_despues_trilla` is kept; in
every other case — including a present but zero `pre` — both
`kg_despues_trilla` and the shrink percentage are cleared to null.  Saving
again with no other change leaves both values unchanged. -/
theorem claim_C6_amended (o : Order) (adding : Bool) (nit date : PyStr) (ns : List PyStr)
    (hnum : o.order_number ≠ []) :
    ∃ o', Order.save o adding nit date ns = some o' ∧
      ((effective_original o adding = some .cps ∧ o.coffee_type = .excelso ∧
          qTruthy o.quantity_kg = true ∧ o.kg_despues_trilla ≠ none) →
        o'.kg_despues_trilla = o.kg_despues_trilla ∧
        o'.porcentaje_reduccion_excelso = some (
          if o.quantity_kg.getD 0 > 0 then
            (o.quantity_kg.getD 0 - o.kg_despues_trilla.getD 0) / o.quantity_kg.getD 0 * 100
          else 0)) ∧
      (¬ (effective_original o adding = some .cps ∧ o.coffee_type = .excelso ∧
            qTruthy o.quantity_kg = true ∧ o.kg_despues_trilla ≠ none) →
        o'.kg_despues_trilla = none ∧ o'.porcentaje_reduccion_excelso = none) ∧
      (∀ o'', Order.save o' false nit date ns = some o'' →
        o''.kg_despues_trilla = o'.kg_despues_trilla ∧
        o''.porcentaje_reduccion_excelso = o'.porcentaje_reduccion_excelso) := by
  refine ⟨{ o.save_derived adding with order_number := o.order_number },
          Order.save_of_number_ne hnum, ?_, ?_, ?_⟩
  · rintro ⟨h1, h2, h3, h4⟩
    constructor
    · show (shrink_update (effective_original o adding) o.coffee_type o.quantity_kg
          o.kg_despues_trilla).1 = o.kg_despues_trilla
      unfold shrink_update
      rw [if_pos ⟨h1, h2⟩, if_pos ⟨h3, h4⟩]
      split <;> rfl
    · show (shrink_update (effective_original o adding) o.coffee_type o.quantity_kg
          o.kg_despues_trilla).2 = some (
            if o.quantity_kg.getD 0 > 0 then
              (o.quantity_kg.getD 0 - o.kg_despues_trilla.getD 0) / o.quantity_kg.getD 0 * 100
            else 0)
      unfold shrink_update
      rw [if_pos ⟨h1, h2⟩, if_pos ⟨h3, h4⟩]
      by_cases h5 : o.quantity_kg.getD 0 > 0
      · rw [if_pos h5, if_pos h5]
      · rw [if_neg h5, if_neg h5]
  · intro hn
    by_cases hA : effective_original o adding = some CoffeeType.cps ∧
        o.coffee_type = CoffeeType.excelso
    · have hB : ¬ (qTruthy o.quantity_kg = true ∧ o.kg_despues_trilla ≠ none) :=
        fun hB => hn ⟨hA.1, hA.2, hB.1, hB.2⟩
      constructor
      · show (shrink_update (effective_original o adding) o.coffee_type o.quantity_kg
            o.kg_despues_trilla).1 = none
        unfold shrink_update
        rw [if_pos hA, if_neg hB]
      · show (shrink_update (effective_original o adding) o.coffee_type o.quantity_kg
            o.kg_despues_trilla).2 = none
        unfold shrink_update
        rw [if_pos hA, if_neg hB]
    · constructor
      · show (shrink_update (effective_original o adding) o.coffee_type o.quantity_kg
            o.kg_despues_trilla).1 = none
        unfold shrink_update
        rw [if_neg hA]
      · show (shrink_update (effective_original o adding) o.coffee_type o.quantity_kg
            o.kg_despues_trilla).2 = none
        unfold shrink_update
        rw [if_neg hA]
  · intro o'' h2
    have hnumX : ({ o.save_derived adding with order_number := o.order_number } :
        Order).order_number ≠ [] := hnum
    rw [Order.save_of_number_ne hnumX] at h2
    injection h2 with h2
    subst h2
    constructor
    · exact congrArg Prod.fst (shrink_update_idem (effective_original o adding)
        o.coffee_type o.quantity_kg o.kg_despues_trilla)
    · exact congrArg Prod.snd (shrink_update_idem (effective_original o adding)
        o.coffee_type o.quantity_kg o.kg_despues_trilla)

/-- Witness for the amended C6: at 50 kg before the trilla and 40 kg after,
save computes a 20 % shrink and keeps `kg_despues_trilla`, and a second save
changes nothing. -/
theorem claim_C6_amended_witness :
    (Order.save o_cps5040 false nit0 date0 []).map Order.porcentaje_reduccion_excelso =
      some (some 20) ∧
    (Order.save o_cps5040 false nit0 date0 []).map Order.kg_despues_trilla =
      some (some 40) := by
  obtain ⟨o', h1, h2, -, -⟩ := claim_C6_amended o_cps5040 false nit0 date0 [] (by decide)
  have h2' := h2 ⟨rfl, rfl, by decide, by decide⟩
  rw [h1]
  constructor
  · show some o'.porcentaje_reduccion_excelso = some (some 20)
    rw [h2'.2]
    simp only [o_cps5040, baseOrder]
    norm_num
  · show some o'.kg_despues_trilla = some (some 40)
    rw [h2'.1]
    decide

/-- C8 counterexample: at `subtotal = 0.10`, `tax_rate = 19` the save stores
the EXACT total `0.119` (no rounding appears in `Invoice.save`), while the
claim's formula `round(subtotal + subtotal × tax_rate/100, 2)` gives `0.12`;
the two differ. -/
theorem claim_C8_counterexample :
    (Invoice.save baseInvoice nit0 date0 []).map Invoice.total_amount =
      some ((119 : ℚ) / 1000) ∧
    spec_round2 (baseInvoice.subtotal + baseInvoice.subtotal * baseInvoice.tax_rate / 100) =
      (12 : ℚ) / 100 ∧
    ((119 : ℚ) / 1000) ≠ (12 : ℚ) / 100 := by
  refine ⟨?_, ?_, by norm_num⟩
  · show some (baseInvoice.subtotal + baseInvoice.subtotal * (baseInvoice.tax_rate / 100)) =
      some ((119 : ℚ) / 1000)
    simp only [baseInvoice]
    norm_num
  · simp only [spec_round2, baseInvoice]
    norm_num [round_eq]

/-- C8 (amended).  Every save of an invoice recomputes
`tax_amount = subtotal × tax_rate/100` and stores the EXACT
`total_amount = subtotal + subtotal × tax_rate/100` — no rounding is applied
in the application code (two-decimal quantization is left to the storage
column) — and the recomputation is idempotent: saving the saved invoice
again returns it unchanged. -/
theorem claim_C8_amended (inv : Invoice) (nit date : PyStr) (ns : List PyStr)
    (hnum : inv.invoice_number ≠ []) :
    ∃ inv', Invoice.save inv nit date ns = some inv' ∧
      inv'.tax_amount = inv.subtotal * (inv.tax_rate / 100) ∧
      inv'.total_amount = inv.subtotal + inv.subtotal * (inv.tax_rate / 100) ∧
      Invoice.save inv' nit date ns = some inv' := by
  have hX : ∀ (t u : ℚ),
      ({ inv with tax_amount := t, total_amount := u } : Invoice).invoice_number ≠ [] :=
    fun _ _ => hnum
  refine ⟨{ inv with
            tax_amount := inv.subtotal * (inv.tax_rate / 100),
            total_amount := inv.subtotal + inv.subtotal * (inv.tax_rate / 100) },
          ?_, rfl, rfl, ?_⟩
  · unfold Invoice.save
    rw [if_neg hnum]
    rfl
  · unfold Invoice.save
    rw [if_neg (hX _ _)]
    rfl

/-- Witness for the amended C8 at a concrete invoice: the stored total is the
exact `0.119`, and saving twice equals saving once. -/
theorem claim_C8_amended_witness :
    (Invoice.save baseInvoice nit0 date0 []).map Invoice.total_amount =
      some ((119 : ℚ) / 1000) ∧
    (Invoice.save baseInvoice nit0 date0 []).bind
        (fun i => Invoice.save i nit0 date0 []) =
      Invoice.save baseInvoice nit0 date0 [] := by
  obtain ⟨i', h1, -, h3, h4⟩ := claim_C8_amended baseInvoice nit0 date0 [] (by decide)
  rw [h1]
  constructor
  · show some i'.total_amount = _
    rw [h3]
    simp only [baseInvoice]
    norm_num
  · show (some i').bind (fun i => Invoice.save i nit0 date0 []) = some i'
    simpa using h4

/-- C9.  The toasting sub-state advances only along
`received → started → monitoring → completed`: each of the three operations
moves the rank forward by at most one and never backward; `complete_process`
invoked in sub-state `received` is a no-op (the process is not completed);
and from `monitoring` it completes the process, setting
`yield_percentage = processed/received × 100` (stated under a positive
received quantity, where the source's division is defined) and recording the
final quality grade. -/
theorem claim_C9_substates (tp : ToastingProcess) (now te : Nat) (temp : ℚ)
    (hum wl : Option ℚ) (q : ℚ) (g : GrainQuality) (notes : PyStr) :
    (sub_state_rank tp.process_status ≤
        sub_state_rank (tp.start_process now).process_status ∧
      sub_state_rank (tp.start_process now).process_status ≤
        sub_state_rank tp.process_status + 1) ∧
    (sub_state_rank tp.process_status ≤
        sub_state_rank (tp.update_monitoring temp te hum wl).process_status ∧
      sub_state_rank (tp.update_monitoring temp te hum wl).process_status ≤
        sub_state_rank tp.process_status + 1) ∧
    (sub_state_rank tp.process_status ≤
        sub_state_rank (tp.complete_process q g notes now).process_status ∧
      sub_state_rank (tp.complete_process q g notes now).process_status ≤
        sub_state_rank tp.process_status + 1) ∧
    (tp.process_status = .received → tp.complete_process q g notes now = tp) ∧
    (tp.process_status = .monitoring → 0 < tp.received_quantity_kg →
      (tp.complete_process q g notes now).process_status = .completed ∧
      (tp.complete_process q g notes now).yield_percentage =
        some (q / tp.received_quantity_kg * 100) ∧
      (tp.complete_process q g notes now).final_grain_quality = some g) := by
  refine ⟨?_, ?_, ?_, ?_, ?_⟩
  · cases h : tp.process_status <;>
      simp [ToastingProcess.start_process, ToastingProcess.can_start_toasting,
            ToastingProcess.save, sub_state_rank, h]
  · cases h : tp.process_status <;> cases hum <;> cases wl <;>
      simp [ToastingProcess.update_monitoring, ToastingProcess.can_monitor_toasting,
            ToastingProcess.save, sub_state_rank, h]
  · cases h : tp.process_status <;>
      by_cases hq : qTruthy (some q) = true <;>
      simp [ToastingProcess.complete_process, ToastingProcess.can_complete_toasting,
            ToastingProcess.save, sub_state_rank, h, hq]
  · intro h
    simp [ToastingProcess.complete_process, ToastingProcess.can_complete_toasting, h]
  · intro h hrec
    by_cases hq : qTruthy (some q) = true <;>
      simp [ToastingProcess.complete_process, ToastingProcess.can_complete_toasting,
            ToastingProcess.save, h, hq]

/-- Witness for C9 at a concrete monitoring sub-process: completion succeeds
with the computed yield and the recorded grade, while a fresh `received`
process is left unchanged by `complete_process`. -/
theorem claim_C9_substates_witness :
    (tp_monitoring.complete_process 45 .good [] 4).process_status = .completed ∧
    (tp_monitoring.complete_process 45 .good [] 4).yield_percentage =
      some (45 / tp_monitoring.received_quantity_kg * 100) ∧
    (tp_monitoring.complete_process 45 .good [] 4).final_grain_quality = some .good ∧
    baseTP.complete_process 45 .good [] 4 = baseTP :=
  ⟨(claim_C9_substates tp_monitoring 4 0 0 none none 45 .good []).2.2.2.2 rfl
      (by norm_num [tp_monitoring, baseTP]) |>.1,
   (claim_C9_substates tp_monitoring 4 0 0 none none 45 .good []).2.2.2.2 rfl
      (by norm_num [tp_monitoring, baseTP]) |>.2.1,
   (claim_C9_substates tp_monitoring 4 0 0 none none 45 .good []).2.2.2.2 rfl
      (by norm_num [tp_monitoring, baseTP]) |>.2.2,
   (claim_C9_substates baseTP 4 0 0 none none 45 .good []).2.2.2.1 rfl⟩

/-- C10.  `Company.cancel` is total and unconditional: for every company and
every status it returns (never raises), sets the status to `cancelled`,
overwrites `suspension_reason`, and — unlike `suspend` — leaves
`suspended_at` (and every other field, e.g. `name`) unchanged.  By contrast
`suspend` succeeds exactly when the status is `active` (and then stamps
`suspended_at`), and `activate` succeeds exactly when the status is not
`cancelled`. -/
theorem claim_C10_company_cancel (c : Company) (reason : PyStr) (now : Nat) :
    ((c.cancel reason).status = .cancelled ∧
      (c.cancel reason).suspension_reason = reason ∧
      (c.cancel reason).suspended_at = c.suspended_at ∧
      (c.cancel reason).name = c.name) ∧
    (exceptIsOk (c.suspend reason now) = true ↔ c.status = .active) ∧
    (exceptIsOk c.activate = true ↔ c.status ≠ .cancelled) ∧
    (c.status = .active →
      c.suspend reason now = .ok { c with
        status := .suspended, suspended_at := some now, suspension_reason := reason }) := by
  refine ⟨⟨rfl, rfl, rfl, rfl⟩, ?_, ?_, ?_⟩
  · by_cases hs : c.status = CompanyStatus.active <;>
      simp [Company.suspend, hs, exceptIsOk]
  · by_cases hs : c.status = CompanyStatus.cancelled <;>
      simp [Company.activate, hs, exceptIsOk]
  · intro h
    unfold Company.suspend
    rw [if_neg (fun hne => hne h)]

/-- Witness for C10 at a concrete active company: `cancel` in every status —
here from the suspended state — keeps `suspended_at`, and `suspend` from
`active` succeeds. -/
theorem claim_C10_company_cancel_witness :
    (baseCompanySuspended.cancel ['X']).status = .cancelled ∧
    (baseCompanySuspended.cancel ['X']).suspended_at = some 3 ∧
    baseCompany.suspend ['R'] 3 = .ok baseCompanySuspended := by
  refine ⟨(claim_C10_company_cancel baseCompanySuspended ['X'] 0).1.1, ?_, ?_⟩
  · rw [(claim_C10_company_cancel baseCompanySuspended ['X'] 0).1.2.2.1]
    rfl
  · exact (claim_C10_company_cancel baseCompany ['R'] 3).2.2.2 rfl

/-- Unfolding equation of `lexLt` on two non-empty strings. -/
theorem lexLt_cons_cons (a b : Char) (s t : PyStr) :
    lexLt (a :: s) (b :: t) = if a < b then true else if b < a then false else lexLt s t := rfl

/-- No string is lexicographically below itself. -/
theorem lexLt_self : ∀ (s : PyStr), lexLt s s = false
  | [] => rfl
  | a :: s => by
    unfold lexLt
    rw [if_neg (lt_irrefl a), if_neg (lt_irrefl a)]
    exact lexLt_self s

/-- Lexicographic comparison is asymmetric. -/
theorem lexLt_asymm : ∀ {s t : PyStr}, lexLt s t = true → lexLt t s = false
  | [], [], h => by simp [lexLt] at h
  | [], _ :: _, _ => rfl
  | _ :: _, [], h => by simp [lexLt] at h
  | a :: s, b :: t, h => by
    unfold lexLt at h ⊢
    by_cases hab : a < b
    · rw [if_neg (lt_asymm hab), if_pos hab]
    · rw [if_neg hab] at h
      by_cases hba : b < a
      · rw [if_pos hba] at h
        exact absurd h (by simp)
      · rw [if_neg hba] at h
        rw [if_neg hba, if_neg hab]
        exact lexLt_asymm h

/-- A common front segment does not affect lexicographic comparison. -/
theorem lexLt_append_left : ∀ (p s t : PyStr), lexLt (p ++ s) (p ++ t) = lexLt s t
  | [], _, _ => rfl
  | a :: p, s, t => by
    show lexLt (a :: (p ++ s)) (a :: (p ++ t)) = lexLt s t
    rw [lexLt_cons_cons, if_neg (lt_irrefl a), if_neg (lt_irrefl a)]
    exact lexLt_append_left p s t

/-- Digit characters compare exactly as their digits do. -/
theorem pyDigitChar_lt_iff : ∀ d, d < 10 → ∀ e, e < 10 →
    ((pyDigitChar d < pyDigitChar e) ↔ d < e) := by decide

/-- Digit characters are not the dash separator. -/
theorem pyDigitChar_ne_dash : ∀ d, d < 10 → (pyDigitChar d != '-') = true := by decide

/-- Parsing a digit character returns its digit. -/
theorem digitVal?_pyDigitChar : ∀ d, d < 10 → digitVal? (pyDigitChar d) = some d := by decide

/-- `%03d` of a number up to 999 is its three decimal digits. -/
theorem pad3_eq_digits {n : Nat} (h : n ≤ 999) :
    pad3 n = [pyDigitChar (n / 100), pyDigitChar (n / 10 % 10), pyDigitChar (n % 10)] := by
  unfold pad3
  rw [if_pos (by omega)]

/-- A three-digit zero-padded number is three characters long. -/
theorem pad3_length {n : Nat} (h : n ≤ 999) : (pad3 n).length = 3 := by
  rw [pad3_eq_digits h]
  rfl

/-- Every character of a three-digit zero-padded number is not a dash. -/
theorem pad3_ne_dash {n : Nat} (h : n ≤ 999) : ∀ c ∈ pad3 n, (c != '-') = true := by
  rw [pad3_eq_digits h]
  intro c hc
  rcases List.mem_cons.mp hc with rfl | hc
  · exact pyDigitChar_ne_dash _ (by omega)
  rcases List.mem_cons.mp hc with rfl | hc
  · exact pyDigitChar_ne_dash _ (by omega)
  rcases List.mem_cons.mp hc with rfl | hc
  · exact pyDigitChar_ne_dash _ (by omega)
  · cases hc

/-- Zero-padding is strictly monotone under lexicographic order (within the
three-digit range). -/
theorem pad3_lexLt_of_lt {a b : Nat} (hab : a < b) (hb : b ≤ 999) :
    lexLt (pad3 a) (pad3 b) = true := by
  have ha : a ≤ 999 := by omega
  rw [pad3_eq_digits ha, pad3_eq_digits hb]
  have ha1 : a / 100 < 10 := by omega
  have hb1 : b / 100 < 10 := by omega
  have ha2 : a / 10 % 10 < 10 := by omega
  have hb2 : b / 10 % 10 < 10 := by omega
  have ha3 : a % 10 < 10 := by omega
  have hb3 : b % 10 < 10 := by omega
  rcases Nat.lt_trichotomy (a / 100) (b / 100) with hc | hc | hc
  · unfold lexLt
    rw [if_pos ((pyDigitChar_lt_iff _ ha1 _ hb1).mpr hc)]
  · rw [show pyDigitChar (a / 100) = pyDigitChar (b / 100) from by rw [hc]]
    unfold lexLt
    rw [if_neg (lt_irrefl _), if_neg (lt_irrefl _)]
    rcases Nat.lt_trichotomy (a / 10 % 10) (b / 10 % 10) with hd | hd | hd
    · unfold lexLt
      rw [if_pos ((pyDigitChar_lt_iff _ ha2 _ hb2).mpr hd)]
    · rw [show pyDigitChar (a / 10 % 10) = pyDigitChar (b / 10 % 10) from by rw [hd]]
      unfold lexLt
      rw [if_neg (lt_irrefl _), if_neg (lt_irrefl _)]
      have he : a % 10 < b % 10 := by omega
      unfold lexLt
      rw [if_pos ((pyDigitChar_lt_iff _ ha3 _ hb3).mpr he)]
    · exact absurd hab (by omega)
  · exact absurd hab (by omega)

/-- Within the three-digit range, lexicographic comparison of zero-padded
numbers is exactly numeric comparison. -/
theorem pad3_lexLt_iff {a b : Nat} (ha : a ≤ 999) (hb : b ≤ 999) :
    lexLt (pad3 a) (pad3 b) = true ↔ a < b := by
  constructor
  · intro h
    rcases Nat.lt_trichotomy a b with hc | hc | hc
    · exact hc
    · subst hc
      rw [lexLt_self] at h
      exact absurd h (by simp)
    · rw [lexLt_asymm (pad3_lexLt_of_lt hc ha)] at h
      exact absurd h (by simp)
  · intro h
    exact pad3_lexLt_of_lt h hb

/-- Distinct numbers up to the day's next sequence value have distinct
zero-padded renderings (the next value may be 1000, one past the range). -/
theorem pad3_ne_of_lt {k j : Nat} (hk : k ≤ 999) (hj : j ≤ 1000) (hkj : k < j) :
    pad3 k ≠ pad3 j := by
  intro heq
  rcases Nat.lt_or_ge j 1000 with hj9 | hj9
  · have := (pad3_lexLt_iff hk (by omega)).mpr hkj
    rw [heq, lexLt_self] at this
    exact absurd this (by simp)
  · have hj1000 : j = 1000 := by omega
    subst hj1000
    have h3 : (pad3 k).length = 3 := pad3_length hk
    have h4 : (pad3 1000).length = 4 := by decide
    rw [heq, h4] at h3
    exact absurd h3 (by simp)

/-- The fold maximum bounds every member of the list. -/
theorem le_foldr_max {k : Nat} : ∀ {ks : List Nat}, k ∈ ks → k ≤ ks.foldr max 0
  | [], h => absurd h (List.not_mem_nil k)
  | k0 :: rest, h => by
    rcases List.mem_cons.mp h with rfl | h
    · exact Nat.le_max_left _ _
    · exact Nat.le_trans (le_foldr_max h) (Nat.le_max_right _ _)

/-- The fold maximum of a list bounded by 999 is bounded by 999. -/
theorem foldr_max_le : ∀ {ks : List Nat}, (∀ k ∈ ks, k ≤ 999) → ks.foldr max 0 ≤ 999
  | [], _ => by simp
  | k0 :: rest, h => by
    have h1 := h k0 (List.mem_cons_self _ _)
    have h2 := foldr_max_le (fun k hk => h k (List.mem_cons_of_mem _ hk))
    simp only [List.foldr_cons]
    omega

/-- The string maximum of the rendered sequence numbers is the rendering of
the numeric maximum: the query `order_by('-order_number').first()` over a
day's well-formed numbers returns the numerically largest one. -/
theorem pyMax_map_pad3 (P : PyStr) :
    ∀ (ks : List Nat), ks ≠ [] → (∀ k ∈ ks, k ≤ 999) →
      pyMax (ks.map (fun k => P ++ pad3 k)) = some (P ++ pad3 (ks.foldr max 0))
  | [], h, _ => absurd rfl h
  | k0 :: rest, _, hb => by
    cases hr : rest with
    | nil =>
      simp only [List.map_cons, List.map_nil, pyMax, List.foldr_cons, List.foldr_nil]
      rw [Nat.max_zero]
    | cons r rs =>
      have hrest : rest ≠ [] := by rw [hr]; simp
      have hbrest : ∀ k ∈ rest, k ≤ 999 := fun k hk =>
        hb k (List.mem_cons_of_mem _ hk)
      have ih := pyMax_map_pad3 P rest hrest hbrest
      rw [← hr]
      have hMr : rest.foldr max 0 ≤ 999 := foldr_max_le hbrest
      have hk0 : k0 ≤ 999 := hb k0 (List.mem_cons_self _ _)
      simp only [List.map_cons, pyMax, ih, List.foldr_cons]
      by_cases hlt : rest.foldr max 0 < k0
      · rw [if_pos (by
          rw [lexLt_append_left]
          exact (pad3_lexLt_iff hMr hk0).mpr hlt)]
        rw [Nat.max_eq_left (Nat.le_of_lt hlt)]
      · rw [if_neg (by
          rw [lexLt_append_left]
          intro hcon
          exact hlt ((pad3_lexLt_iff hMr hk0).mp hcon))]
        rw [Nat.max_eq_right (Nat.le_of_not_lt hlt)]

/-- `takeWhile` collects a dash-free front segment up to the dash. -/
theorem takeWhile_append_sep {sep : Char} :
    ∀ {a : List Char}, (∀ c ∈ a, (c != sep) = true) → ∀ (b : List Char),
      (a ++ sep :: b).takeWhile (fun c => c != sep) = a
  | [], _, b => by simp [List.takeWhile_cons]
  | x :: a, h, b => by
    have hx := h x (List.mem_cons_self _ _)
    have ha : ∀ c ∈ a, (c != sep) = true := fun c hc => h c (List.mem_cons_of_mem _ hc)
    simp only [List.cons_append, List.takeWhile_cons, hx, if_true]
    rw [takeWhile_append_sep ha b]

/-- Python `s.split('-')[-1]` of `p ++ "-" ++ t` with a dash-free `t` is `t`. -/
theorem afterLastSep_append {sep : Char} {t : List Char}
    (ht : ∀ c ∈ t, (c != sep) = true) (p : List Char) :
    afterLastSep sep (p ++ sep :: t) = t := by
  unfold afterLastSep
  have hrev : (p ++ sep :: t).reverse = t.reverse ++ sep :: p.reverse := by
    simp
  rw [hrev, takeWhile_append_sep (fun c hc => ht c (List.mem_reverse.mp hc)) p.reverse,
      List.reverse_reverse]

/-- Parsing the zero-padded rendering returns the number. -/
theorem pyInt?_pad3 {k : Nat} (hk : k ≤ 999) : pyInt? (pad3 k) = some k := by
  rw [pad3_eq_digits hk]
  have e1 := digitVal?_pyDigitChar (k / 100) (by omega)
  have e2 := digitVal?_pyDigitChar (k / 10 % 10) (by omega)
  have e3 := digitVal?_pyDigitChar (k % 10) (by omega)
  simp [pyInt?, Option.bind, e1, e2, e3]
  omega

/-- A list is a `isPrefixOf`-prefix of itself followed by anything. -/
theorem isPrefixOf_append_self : ∀ (a b : List Char), a.isPrefixOf (a ++ b) = true
  | [], _ => by simp [List.isPrefixOf]
  | x :: a, b => by
    simp only [List.cons_append, List.isPrefixOf, beq_self_eq_true, Bool.true_and]
    exact isPrefixOf_append_self a b

/-- When the order number is empty, `Order.save` synthesizes it. -/
theorem Order.save_empty {o : Order} (adding : Bool) (nit date : PyStr) (ns : List PyStr)
    (h : o.order_number = []) :
    Order.save o adding nit date ns =
      match generate_order_number nit date ns with
      | none => none
      | some num => some { o.save_derived adding with order_number := num } := by
  unfold Order.save
  rw [if_pos h]

/-- C7.  The order number is synthesized exactly once, at first persistence:
when the stored number is empty, `save` assigns
`MAQ-<nit>-<date>-<NNN>` where `NNN` is one past the numerically largest
sequence among the existing numbers sharing that prefix (starting at `001`
when there are none), the new number is unused among the existing numbers,
and it is three-digit zero-padded while the sequence stays within 999; when
the stored number is non-empty, every save leaves it unchanged.  The
hypothesis presents the day's same-prefix numbers as well-formed renderings
of sequence values `ks ⊆ [1, 999]`. -/
theorem claim_C7_order_number (o : Order) (adding : Bool) (nit date : PyStr)
    (existing : List PyStr) (ks : List Nat) :
    (o.order_number = [] →
      existing.filter (fun s => (maq_base nit date).isPrefixOf s) =
        ks.map (fun k => maq_base nit date ++ '-' :: pad3 k) →
      (∀ k ∈ ks, 1 ≤ k ∧ k ≤ 999) →
      ∃ o', Order.save o adding nit date existing = some o' ∧
        o'.order_number = maq_base nit date ++ '-' :: pad3 (ks.foldr max 0 + 1) ∧
        (∀ s ∈ existing, s ≠ o'.order_number) ∧
        (ks.foldr max 0 + 1 ≤ 999 → (pad3 (ks.foldr max 0 + 1)).length = 3)) ∧
    (o.order_number ≠ [] →
      ∀ o', Order.save o adding nit date existing = some o' →
        o'.order_number = o.order_number) := by
  constructor
  · intro hemp hfilter hks
    simp only [maq_base] at hfilter
    have hgen : generate_order_number nit date existing =
        some ((['M', 'A', 'Q'] ++ '-' :: nit ++ '-' :: date) ++ '-' ::
              pad3 (ks.foldr max 0 + 1)) := by
      simp only [generate_order_number, generate_number]
      rw [hfilter]
      cases ks with
      | nil => rfl
      | cons k0 rest =>
        have hfun : (fun k => (['M', 'A', 'Q'] ++ '-' :: nit ++ '-' :: date) ++
              '-' :: pad3 k) =
            (fun k => ((['M', 'A', 'Q'] ++ '-' :: nit ++ '-' :: date) ++ ['-']) ++
              pad3 k) := funext (fun k => by simp)
        rw [hfun, pyMax_map_pad3 ((['M', 'A', 'Q'] ++ '-' :: nit ++ '-' :: date) ++ ['-'])
              (k0 :: rest) (by simp) (fun k hk => (hks k hk).2)]
        have hM : (k0 :: rest).foldr max 0 ≤ 999 :=
          foldr_max_le (fun k hk => (hks k hk).2)
        have hsplit : afterLastSep '-'
            (((['M', 'A', 'Q'] ++ '-' :: nit ++ '-' :: date) ++ ['-']) ++
              pad3 ((k0 :: rest).foldr max 0)) = pad3 ((k0 :: rest).foldr max 0) := by
          rw [show ((['M', 'A', 'Q'] ++ '-' :: nit ++ '-' :: date) ++ ['-']) ++
                pad3 ((k0 :: rest).foldr max 0) =
              (['M', 'A', 'Q'] ++ '-' :: nit ++ '-' :: date) ++
                '-' :: pad3 ((k0 :: rest).foldr max 0) from by simp]
          exact afterLastSep_append (pad3_ne_dash hM) _
        show (pyInt? (afterLastSep '-'
            (((['M', 'A', 'Q'] ++ '-' :: nit ++ '-' :: date) ++ ['-']) ++
              pad3 ((k0 :: rest).foldr max 0)))).map
            (fun k => (['M', 'A', 'Q'] ++ '-' :: nit ++ '-' :: date) ++
              '-' :: pad3 (k + 1)) = _
        rw [hsplit, pyInt?_pad3 hM]
        rfl
    refine ⟨{ o.save_derived adding with
              order_number := maq_base nit date ++ '-' :: pad3 (ks.foldr max 0 + 1) },
            ?_, rfl, ?_, ?_⟩
    · rw [Order.save_empty adding nit date existing hemp, hgen]
      rfl
    · intro s hs
      show s ≠ maq_base nit date ++ '-' :: pad3 (ks.foldr max 0 + 1)
      simp only [maq_base]
      have hMle : ks.foldr max 0 ≤ 999 := foldr_max_le (fun k hk => (hks k hk).2)
      by_cases hp : (['M', 'A', 'Q'] ++ '-' :: nit ++ '-' :: date).isPrefixOf s = true
      · have hsf : s ∈ existing.filter (fun s =>
            (['M', 'A', 'Q'] ++ '-' :: nit ++ '-' :: date).isPrefixOf s) :=
          List.mem_filter.mpr ⟨hs, hp⟩
        rw [hfilter] at hsf
        obtain ⟨k, hkmem, hkeq⟩ := List.mem_map.mp hsf
        intro heq
        rw [← hkeq] at heq
        have hxy := List.append_cancel_left heq
        have hpad : pad3 k = pad3 (ks.foldr max 0 + 1) := by injection hxy
        exact pad3_ne_of_lt (hks k hkmem).2 (by omega)
          (by have := le_foldr_max hkmem; omega) hpad
      · intro heq
        apply hp
        rw [heq]
        exact isPrefixOf_append_self _ _
    · intro h999
      exact pad3_length h999
  · intro hne o' h
    rw [Order.save_of_number_ne hne] at h
    injection h with h
    subst h
    rfl

/-- Witness for C7: with one existing number `MAQ-900-20260101-001`, the
first persist of a fresh order is assigned `MAQ-900-20260101-002`, and a
later save of an order with a number keeps it. -/
theorem claim_C7_order_number_witness :
    (Order.save o_noNumber true nit0 date0 existing0).map Order.order_number =
      some (maq_base nit0 date0 ++ '-' :: pad3 2) ∧
    (Order.save baseOrder false nit0 date0 existing0).map Order.order_number =
      some baseOrder.order_number := by
  constructor
  · obtain ⟨o', h1, h2, -, -⟩ :=
      (claim_C7_order_number o_noNumber true nit0 date0 existing0 [1]).1 rfl
        (by decide) (by decide)
    rw [h1]
    show some o'.order_number = _
    rw [h2]
    rfl
  · have h := (claim_C7_order_number baseOrder false nit0 date0 existing0 []).2
      (by decide)
    rw [Order.save_of_number_ne (show baseOrder.order_number ≠ [] from by decide)]
    exact congrArg some (h _ (Order.save_of_number_ne (by decide)))

end theorems

end LineaProd
